import Mathlib

/-!
Verification of the nais debug-session manager and migration orchestrator.

The Go source is embedded shallowly: each external call (Kubernetes API
requests, interactive prompts, spawned processes) is an input supplied by a
`World` structure, and each operation returns its Go result together with a
trace of the external events it performed, in order.  Machine behaviour that
the source relies on is modelled where it matters: the generated client-go
`List` call always returns a non-nil (possibly empty) pod list alongside its
error, so both values are part of the world.
-/

/-- Go errors as values: `notFound` models errors recognised by
`k8serrors.IsNotFound`; everything else carries its message. -/
inductive GoError where
  | notFound (msg : String)
  | other (msg : String)
deriving DecidableEq, Repr

/-- `k8serrors.IsNotFound`. -/
def GoError.isNotFound : GoError → Bool
  | .notFound _ => true
  | .other _ => false

/-- `err.Error()`. -/
def GoError.message : GoError → String
  | .notFound m => m
  | .other m => m

/-- Does `p` start the character list `s`? -/
def listStartsWith : List Char → List Char → Bool
  | [], _ => true
  | _ :: _, [] => false
  | p :: ps, c :: cs => p = c && listStartsWith ps cs

/-- Does the pattern occur somewhere in the character list? -/
def listHasSub (pat : List Char) : List Char → Bool
  | [] => listStartsWith pat []
  | c :: cs => listStartsWith pat (c :: cs) || listHasSub pat cs

/-- `strings.Contains s pat`. -/
def strContains (s pat : String) : Bool :=
  listHasSub pat.toList s.toList

namespace debug

/-- `debug.Config` (src/unnamed/part_001). -/
structure Config where
  Namespace : String
  Context : String
  WorkloadName : String
  DebugImage : String
  CopyPod : Bool
  ByPod : Bool
deriving DecidableEq, Repr

/-- The slice of a `core_v1.Pod` that the debug manager reads: its name, how
many ephemeral containers its spec already holds, and its container statuses
as (name, running?) pairs. -/
structure Pod where
  name : String
  ephemeralContainers : Nat
  containerStatuses : List (String × Bool)
deriving DecidableEq, Repr

/-- Observable external events of a debug session, in order. -/
inductive Ev where
  | listPods (selector : String)
  | getPod (name : String)
  | promptSelect
  | attachCmd (podName : String)
  | debugCmd (podName : String)
  | sleep (seconds : Nat)
deriving DecidableEq, Repr

/-- Outcomes of every external call a debug session can make.  A `List` call
returns the pod-list value together with an optional error, exactly the pair
the Go caller receives from the generated clientset (the list is non-nil even
on failure).  `getCopyPod k` is the result of the k-th `Get` of the copy pod
(k = 0 is the existence check, k ≥ 1 the polls); `getTargetPod` is the `Get`
of the workload pod in ephemeral mode; the remaining fields are the prompt
and the `cmd.Start()` / `cmd.Wait()` outcomes of the spawned kubectl
processes (`debugWaitErr` is the message of a non-nil `Wait` error). -/
structure World where
  listPrimary : List Pod × Option GoError
  listFallback : List Pod × Option GoError
  getCopyPod : Nat → Except GoError Pod
  getTargetPod : Except GoError Pod
  prompt : List String → Except GoError String
  attachStartErr : Option GoError
  attachWaitErr : Option GoError
  debugStartErr : Option GoError
  debugWaitErr : Option String

def debuggerSuffix : String := "nais-debugger"

def debuggerContainerDefaultName : String := "debugger"

/-- `debuggerContainerName` (part_001 line 65). -/
def debuggerContainerName (podName : String) : String :=
  podName ++ "-" ++ debuggerSuffix

/-- `Debug.getPodsForWorkload` (part_001 lines 47-63): list by the primary
selector; if the returned item list is empty, list again by the fallback
selector; only then inspect the (possibly overwritten) error. -/
def getPodsForWorkload (cfg : Config) (w : World) :
    Except GoError (List Pod) × List Ev :=
  let e1 := Ev.listPods ("app.kubernetes.io/name=" ++ cfg.WorkloadName)
  if w.listPrimary.1.length = 0 then
    let e2 := Ev.listPods ("app=" ++ cfg.WorkloadName)
    match w.listFallback.2 with
    | some e => (.error (.other ("failed to get pods: " ++ e.message)), [e1, e2])
    | none => (.ok w.listFallback.1, [e1, e2])
  else
    match w.listPrimary.2 with
    | some e => (.error (.other ("failed to get pods: " ++ e.message)), [e1])
    | none => (.ok w.listPrimary.1, [e1])

/-- `Debug.attachToExistingDebugContainer` (part_001 lines 116-145). -/
def attachToExistingDebugContainer (w : World) (podName : String) :
    Except GoError Unit × List Ev :=
  match w.attachStartErr with
  | some e =>
      (.error (.other ("failed to start attach command: " ++ e.message)),
       [.attachCmd podName])
  | none =>
      match w.attachWaitErr with
      | some e =>
          (.error (.other ("attach command failed: " ++ e.message)),
           [.attachCmd podName])
      | none => (.ok (), [.attachCmd podName])

/-- `Debug.createDebugPod` (part_001 lines 147-203): a `Wait` error whose
message contains "exit status 1" is treated as a clean exit. -/
def createDebugPod (w : World) (podName : String) :
    Except GoError Unit × List Ev :=
  match w.debugStartErr with
  | some e =>
      (.error (.other ("failed to start debug command: " ++ e.message)),
       [.debugCmd podName])
  | none =>
      match w.debugWaitErr with
      | some msg =>
          if strContains msg "exit status 1" then
            (.ok (), [.debugCmd podName])
          else
            (.error (.other ("debug command failed: " ++ msg)),
             [.debugCmd podName])
      | none => (.ok (), [.debugCmd podName])

/-- Does the pod report the container named `debugger` as Running? -/
def debuggerRunning (p : Pod) : Bool :=
  p.containerStatuses.any (fun c => c.1 = debuggerContainerDefaultName && c.2)

/-- The attach-retry poll loop of `Debug.debugPod` (part_001 lines 80-94):
`k` is the number of the next `Get` of the copy pod, `fuel` the remaining
attempts out of 6.  Each failed attempt sleeps 5 seconds before the next. -/
def pollLoop (w : World) (pN : String) : Nat → Nat → Except GoError Unit × List Ev
  | _, 0 => (.error (.other "container did not start within the expected time"), [])
  | k, fuel + 1 =>
      match w.getCopyPod k with
      | .error e =>
          (.error (.other ("failed to get debug pod copy " ++ pN ++ ": " ++ e.message)),
           [.getPod pN])
      | .ok pod =>
          if debuggerRunning pod then
            let p := attachToExistingDebugContainer w pN
            (p.1, .getPod pN :: p.2)
          else
            let p := pollLoop w pN (k + 1) fuel
            (p.1, .getPod pN :: .sleep 5 :: p.2)

/-- `Debug.debugPod` (part_001 lines 69-114). -/
def debugPod (cfg : Config) (w : World) (podName : String) :
    Except GoError Unit × List Ev :=
  if cfg.CopyPod then
    let pN := debuggerContainerName podName
    match w.getCopyPod 0 with
    | .ok _ =>
        let p := pollLoop w pN 1 6
        (p.1, .getPod pN :: p.2)
    | .error e =>
        if e.isNotFound then
          let p := createDebugPod w podName
          (p.1, .getPod pN :: p.2)
        else
          (.error (.other ("failed to check for existing debug pod copy " ++ pN ++ ": " ++ e.message)),
           [.getPod pN])
  else
    match w.getTargetPod with
    | .error e =>
        (.error (.other ("failed to get pod " ++ podName ++ ": " ++ e.message)),
         [.getPod podName])
    | .ok _ =>
        let p := createDebugPod w podName
        (p.1, .getPod podName :: p.2)

/-- `Debug.Debug` (part_001 lines 205-236): zero pods is a clean return; the
prompt is shown whenever `ByPod` is set; a `debugPod` failure is printed and
`nil` is returned. -/
def Debug (cfg : Config) (w : World) : Except GoError Unit × List Ev :=
  match getPodsForWorkload cfg w with
  | (.error e, tr) => (.error e, tr)
  | (.ok pods, tr) =>
      let podNames := pods.map Pod.name
      if podNames.length = 0 then
        (.ok (), tr)
      else
        if cfg.ByPod then
          match w.prompt podNames with
          | .error e => (.error e, tr ++ [.promptSelect])
          | .ok chosen =>
              (.ok (), tr ++ [.promptSelect] ++ (debugPod cfg w chosen).2)
        else
          (.ok (), tr ++ (debugPod cfg w (podNames.headD "")).2)

end debug

namespace migrate

/-- The part of the migration config that `Migrator.Setup` reads directly
(src/unnamed/part_002); instance names enter through resolution results. -/
structure Cfg where
  AppName : String
  Namespace : String
deriving DecidableEq, Repr

/-- Observable external operations of `Migrator.Setup`, in order.  The three
`create*` operations are the cluster mutations of the disabled mutation step;
they are in the vocabulary so that the frame property is expressible. -/
inductive Op where
  | listConfigMaps (ns labelSelector : String)
  | resolveTarget
  | resolveSource
  | lookupProject
  | printConfig
  | confirmPrompt
  | createConfigMap (name : String)
  | createRoleBinding (name : String)
  | createJob (name : String)
  | runSpinner
  | printMessage (msg : String)
deriving DecidableEq, Repr

/-- Randomness and pterm outcomes consumed by `Migrator.doSpinner`
(part_002 lines 127-172): the 50 producer delays (`rand.IntnRange(5,10)`),
the severity draws of the consumer, and the two fallible `Start` calls. -/
structure SpinnerWorld where
  delays : Fin 50 → Nat
  severities : Fin 50 → Nat
  spinnerStartErr : Option String
  multiStartErr : Option String

/-- The status lines emitted by the producer goroutine of `doSpinner`:
exactly one per loop iteration, 50 in total, then the channel closes. -/
def progressMessages (sw : SpinnerWorld) : List String :=
  (List.finRange 50).map
    (fun i => "Migration setup is still running, waited " ++ toString (sw.delays i) ++ " seconds")

/-- `Migrator.doSpinner` (part_002 lines 127-172): fails only if the spinner
or the multi printer fails to start; otherwise it drains the 50 status
messages and declares success.  The second component is the number of status
messages the consumer loop processed. -/
def doSpinner (sw : SpinnerWorld) : Except String Unit × Nat :=
  match sw.spinnerStartErr with
  | some e => (.error ("failed to start spinner: " ++ e), 0)
  | none =>
      match sw.multiStartErr with
      | some e => (.error ("failed to start multi printer: " ++ e), 0)
      | none => (.ok (), (progressMessages sw).length)

/-- Outcomes of the external calls `Migrator.Setup` makes: the marker
ConfigMap list, the two instance-config resolutions (their resolved instance
names), the GCP project lookup, the confirmation prompt, and the spinner
inputs. -/
structure World where
  markerList : Except String (List String)
  resolveTargetR : Except String String
  resolveSourceR : Except String String
  lookupProjectR : Except String String
  confirmR : Except String Unit
  spinner : SpinnerWorld

/-- Modelled from the spec: `kubectlLabelSelector` is not under src/; the
spec names the marker label `migrator.nais.io/app-name=<appName>`, so the
log-tail label selector is modelled as that label. -/
def kubectlLabelSelector (cfg : Cfg) : String :=
  "migrator.nais.io/app-name=" ++ cfg.AppName

/-- The console deep link of part_002 line 120. -/
def cloudConsoleUrl (source target project : String) : String :=
  "https://console.cloud.google.com/dbmigration/migrations/locations/europe-north1/instances/"
    ++ source ++ "-" ++ target ++ "?project=" ++ project

/-- `SetupSuccessMessage` (part_002 lines 13-31), the Go format string. -/
def SetupSuccessMessage : String :=
  "\nMigration setup has been started successfully.\n\nTo monitor the migration, run the following command:\n\tkubectl logs -f -l %s -n %s\n\nThe setup will take some time to complete, you can check completion status with the following command:\n\tkubectl get job %s -n %s\n\nWhen setup is complete, a new instance has been created and replication of data has started.\nYou can check the replication progress in the Google Cloud Console:\n\t%s\n\nWhen the migration has Status Running and is in the CDC or Ready to Promote phase,\nyou can proceed with the next step of the migration:\n\tnais postgres migrate promote %s %s %s\n\nBe aware that during promotion (the next step), your instance will be unavailable for some time.\n"

/-- The literal segments of `SetupSuccessMessage` between its eight `%s`
verbs (see `setupSegments_join`). -/
def msgSeg0 : String := "\nMigration setup has been started successfully.\n\nTo monitor the migration, run the following command:\n\tkubectl logs -f -l "
def msgSeg1 : String := " -n "
def msgSeg2 : String := "\n\nThe setup will take some time to complete, you can check completion status with the following command:\n\tkubectl get job "
def msgSeg3 : String := " -n "
def msgSeg4 : String := "\n\nWhen setup is complete, a new instance has been created and replication of data has started.\nYou can check the replication progress in the Google Cloud Console:\n\t"
def msgSeg5 : String := "\n\nWhen the migration has Status Running and is in the CDC or Ready to Promote phase,\nyou can proceed with the next step of the migration:\n\tnais postgres migrate promote "
def msgSeg6 : String := " "
def msgSeg7 : String := " "
def msgSeg8 : String := "\n\nBe aware that during promotion (the next step), your instance will be unavailable for some time.\n"

/-- `fmt.Printf(SetupSuccessMessage, label, ns, "jobName", ns, url, app, ns,
target)` of part_002 line 122, with the verbs substituted in order. -/
def setupMessage (cfg : Cfg) (source target project : String) : String :=
  msgSeg0 ++ kubectlLabelSelector cfg ++ msgSeg1 ++ cfg.Namespace
    ++ msgSeg2 ++ "jobName" ++ msgSeg3 ++ cfg.Namespace
    ++ msgSeg4 ++ cloudConsoleUrl source target project
    ++ msgSeg5 ++ cfg.AppName ++ msgSeg6 ++ cfg.Namespace ++ msgSeg7 ++ target
    ++ msgSeg8

/-- `Migrator.Setup` (part_002 lines 33-125).  The commented-out mutation
step (lines 91-108) emits nothing; a spinner failure falls back to printing
the completion message. -/
def Setup (cfg : Cfg) (w : World) (wait : Bool) : Except String Unit × List Op :=
  let e0 := Op.listConfigMaps cfg.Namespace ("migrator.nais.io/app-name=" ++ cfg.AppName)
  match w.markerList with
  | .error e => (.error e, [e0])
  | .ok items =>
      if items.length > 0 then
        (.error "migration config already exists for this application", [e0])
      else
        match w.resolveTargetR with
        | .error e => (.error e, [e0, .resolveTarget])
        | .ok target =>
            match w.resolveSourceR with
            | .error e => (.error e, [e0, .resolveTarget, .resolveSource])
            | .ok source =>
                let tr3 : List Op := [e0, .resolveTarget, .resolveSource]
                if source = "" then
                  (.error "source instance name is empty", tr3)
                else if target = "" then
                  (.error "target instance name is required", tr3)
                else if source = target then
                  (.error "source and target instance names cannot be the same", tr3)
                else
                  match w.lookupProjectR with
                  | .error e =>
                      (.error ("failed to lookup GCP project ID: " ++ e), tr3 ++ [.lookupProject])
                  | .ok project =>
                      let tr4 := tr3 ++ [Op.lookupProject, .printConfig, .confirmPrompt]
                      match w.confirmR with
                      | .error e => (.error e, tr4)
                      | .ok _ =>
                          let spinnerTrace : List Op := if wait then [.runSpinner] else []
                          let ptermFailed :=
                            if wait then
                              match (doSpinner w.spinner).1 with
                              | .error _ => true
                              | .ok _ => false
                            else false
                          let msgTrace : List Op :=
                            if !wait || ptermFailed then
                              [.printMessage (setupMessage cfg source target project)]
                            else []
                          (.ok (), tr4 ++ spinnerTrace ++ msgTrace)

/-- The cluster objects `Setup` could create; the frame property is stated
against this state. -/
structure ClusterState where
  configMaps : List String
  roleBindings : List String
  jobs : List String
deriving DecidableEq, Repr

/-- Effect of one operation on cluster state: only the three create
operations mutate it; every other operation is a read or local output. -/
def applyOp (s : ClusterState) : Op → ClusterState
  | .createConfigMap n => { s with configMaps := s.configMaps ++ [n] }
  | .createRoleBinding n => { s with roleBindings := s.roleBindings ++ [n] }
  | .createJob n => { s with jobs := s.jobs ++ [n] }
  | _ => s

/-- Replay a trace against a cluster state. -/
def runOps (s : ClusterState) (ops : List Op) : ClusterState :=
  ops.foldl applyOp s

/-- The names of jobs created along a trace. -/
def createdJobs (ops : List Op) : List String :=
  ops.filterMap (fun op => match op with | .createJob n => some n | _ => none)

end migrate

/-- Prop-level substring containment, used to state message-content facts
for messages built from unresolved configuration values. -/
def containsStr (s pat : String) : Prop := ∃ a b, s = a ++ (pat ++ b)

namespace debug

/-- Whether the k-th `Get` of the copy pod observes the `debugger` container
Running (false also when the `Get` itself fails). -/
def runningPoll (w : World) (k : Nat) : Bool :=
  match w.getCopyPod k with
  | .ok p => debuggerRunning p
  | .error _ => false

/-- Number of attach invocations launched along a trace. -/
def countAttach (tr : List Ev) : Nat :=
  (tr.filter fun e => match e with | .attachCmd _ => true | _ => false).length

/-- The timeout result of the exhausted attach-retry loop. -/
def timeoutErr : Except GoError Unit :=
  .error (.other "container did not start within the expected time")

/-- A pod of the workload with a healthy debugger status. -/
def podReady : Pod :=
  { name := "myapp-1", ephemeralContainers := 0, containerStatuses := [("debugger", true)] }

/-- A copy pod whose debugger container is not yet Running. -/
def podWaiting : Pod :=
  { name := "myapp-1-nais-debugger", ephemeralContainers := 0,
    containerStatuses := [("debugger", false)] }

/-- A copy pod whose debugger container is Running. -/
def podRunning : Pod :=
  { name := "myapp-1-nais-debugger", ephemeralContainers := 0,
    containerStatuses := [("debugger", true)] }

/-- Baseline config: ephemeral mode, no interactive selection. -/
def cfgMain : Config :=
  { Namespace := "myns", Context := "", WorkloadName := "myapp", DebugImage := "img",
    CopyPod := false, ByPod := false }

/-- Copy-pod mode variant of `cfgMain`. -/
def cfgCopy : Config := { cfgMain with CopyPod := true }

/-- Interactive-selection variant of `cfgMain`. -/
def cfgByPod : Config := { cfgMain with ByPod := true }

/-- Baseline world: one pod found by the primary selector, copy pod absent,
all processes succeed, prompt picks the first option. -/
def baseWorld : World :=
  { listPrimary := ([podReady], none), listFallback := ([], none),
    getCopyPod := fun _ => .error (.notFound "not found"),
    getTargetPod := .ok podReady,
    prompt := fun names => .ok (names.headD ""),
    attachStartErr := none, attachWaitErr := none,
    debugStartErr := none, debugWaitErr := none }

/-- World in which every `Get` of the copy pod fails with a non-NotFound
error. -/
def wBoom : World := { baseWorld with getCopyPod := fun _ => .error (.other "boom") }

/-- World in which the primary `List` fails (returning, as the generated
clientset does, an empty list next to the error) and the fallback succeeds. -/
def wPrimaryFail : World :=
  { baseWorld with listPrimary := ([], some (.other "boom")),
                   listFallback := ([podReady], none) }

/-- World in which both selectors return empty lists without error. -/
def wNoPods : World :=
  { baseWorld with listPrimary := ([], none), listFallback := ([], none) }

/-- World in which the copy pod exists and its debugger container becomes
Running at the third poll. -/
def wPollRun : World :=
  { baseWorld with getCopyPod := fun k => if k = 3 then .ok podRunning else .ok podWaiting }

/-- World in which the copy pod exists but its debugger container never
becomes Running. -/
def wPollNever : World :=
  { baseWorld with getCopyPod := fun _ => .ok podWaiting }

end debug

namespace migrate

/-- The C8 reading of the status-check line, in the spec's words: the
message names a job that the setup actually created. -/
def namesActualJob (jobs : List String) (msg : String) : Prop :=
  ∃ j ∈ jobs, strContains msg ("kubectl get job " ++ j) = true

/-- Spinner inputs with fixed randomness and successful starts. -/
def sw0 : SpinnerWorld :=
  { delays := fun _ => 5, severities := fun _ => 1,
    spinnerStartErr := none, multiStartErr := none }

/-- Baseline migration config. -/
def cfgM : Cfg := { AppName := "myapp", Namespace := "myns" }

/-- World in which no marker exists and every step succeeds. -/
def wM : World :=
  { markerList := .ok [], resolveTargetR := .ok "tgt-inst",
    resolveSourceR := .ok "src-inst", lookupProjectR := .ok "proj-123",
    confirmR := .ok (), spinner := sw0 }

/-- World in which a marker ConfigMap already exists. -/
def wMarker : World := { wM with markerList := .ok ["existing-marker"] }

/-- World in which source and target resolve to the same instance name. -/
def wSame : World :=
  { wM with resolveTargetR := .ok "same-inst", resolveSourceR := .ok "same-inst" }

end migrate

/-! ## Theorems -/

/-- C1 is false on the code: `Debug.Debug` prints a `debugPod` failure and
returns nil.  At this input the per-pod operation fails fatally (non-NotFound
lookup error on the copy pod), yet `Debug` returns success. -/
theorem debugPod_error_not_propagated :
    (debug.debugPod debug.cfgCopy debug.wBoom "myapp-1").1 =
      .error (.other "failed to check for existing debug pod copy myapp-1-nais-debugger: boom")
    ∧ (debug.Debug debug.cfgCopy debug.wBoom).1 = .ok () := by
  constructor <;> rfl

/-- C1 (amended): once the pod lookup has succeeded and, if interactive
selection is on, the prompt has succeeded, `Debug` returns nil regardless of
the outcome of `debugPod` — a fatal per-pod error is printed, not
propagated.  Only pod-lookup and prompt failures propagate out of `Debug`. -/
theorem debug_returns_ok_after_lookup (cfg : debug.Config) (w : debug.World)
    (pods : List debug.Pod) (tr : List debug.Ev)
    (h1 : debug.getPodsForWorkload cfg w = (.ok pods, tr))
    (h2 : cfg.ByPod = true → pods ≠ [] → ∃ s, w.prompt (pods.map debug.Pod.name) = .ok s) :
    (debug.Debug cfg w).1 = .ok () := by
  unfold debug.Debug
  rw [h1]
  by_cases hlen : (pods.map debug.Pod.name).length = 0
  · simp [hlen]
  · have hne : pods ≠ [] := by
      intro he
      subst he
      simp at hlen
    by_cases hb : cfg.ByPod = true
    · obtain ⟨s, hs⟩ := h2 hb hne
      simp [hlen, hb, hs, hne]
    · simp [hlen, hb, hne]

/-- Witness for the amended C1 at a concrete input. -/
theorem debug_returns_ok_after_lookup_witness :
    (debug.Debug debug.cfgCopy debug.wBoom).1 = .ok () :=
  debug_returns_ok_after_lookup debug.cfgCopy debug.wBoom [debug.podReady] _ rfl
    (fun h _ => absurd h (by decide))

/-- C2: an existing MigrationMarker makes `Setup` fail with the
already-exists error before any instance-config resolution: neither resolve
operation appears in the trace. -/
theorem setup_marker_already_exists (cfg : migrate.Cfg) (w : migrate.World) (wait : Bool)
    (items : List String) (h : w.markerList = .ok items) (hne : items ≠ []) :
    (migrate.Setup cfg w wait).1 = .error "migration config already exists for this application"
    ∧ migrate.Op.resolveTarget ∉ (migrate.Setup cfg w wait).2
    ∧ migrate.Op.resolveSource ∉ (migrate.Setup cfg w wait).2 := by
  have hlen : items.length > 0 := List.length_pos.mpr hne
  simp [migrate.Setup, h, hlen]

/-- Witness for C2 at a concrete input. -/
theorem setup_marker_already_exists_witness :
    (migrate.Setup migrate.cfgM migrate.wMarker true).1 =
      .error "migration config already exists for this application"
    ∧ migrate.Op.resolveTarget ∉ (migrate.Setup migrate.cfgM migrate.wMarker true).2
    ∧ migrate.Op.resolveSource ∉ (migrate.Setup migrate.cfgM migrate.wMarker true).2 :=
  setup_marker_already_exists migrate.cfgM migrate.wMarker true ["existing-marker"] rfl
    (by decide)

/-- C7: when both selectors return zero pods without error, `Debug` returns
success and its trace holds only the two list queries — no attach and no
debug process is ever launched. -/
theorem debug_zero_pods_clean (cfg : debug.Config) (w : debug.World)
    (h1 : w.listPrimary = ([], none)) (h2 : w.listFallback = ([], none)) :
    debug.Debug cfg w =
      (.ok (), [.listPods ("app.kubernetes.io/name=" ++ cfg.WorkloadName),
                .listPods ("app=" ++ cfg.WorkloadName)])
    ∧ ∀ p, debug.Ev.attachCmd p ∉ (debug.Debug cfg w).2
         ∧ debug.Ev.debugCmd p ∉ (debug.Debug cfg w).2 := by
  have hD : debug.Debug cfg w =
      (.ok (), [.listPods ("app.kubernetes.io/name=" ++ cfg.WorkloadName),
                .listPods ("app=" ++ cfg.WorkloadName)]) := by
    simp [debug.Debug, debug.getPodsForWorkload, h1, h2]
  refine ⟨hD, fun p => ?_⟩
  rw [hD]
  simp

/-- Witness for C7 at a concrete input. -/
theorem debug_zero_pods_clean_witness :
    debug.Debug debug.cfgMain debug.wNoPods =
      (.ok (), [.listPods "app.kubernetes.io/name=myapp", .listPods "app=myapp"])
    ∧ ∀ p, debug.Ev.attachCmd p ∉ (debug.Debug debug.cfgMain debug.wNoPods).2
         ∧ debug.Ev.debugCmd p ∉ (debug.Debug debug.cfgMain debug.wNoPods).2 :=
  debug_zero_pods_clean debug.cfgMain debug.wNoPods rfl rfl

/-- C9: `Setup` never mutates cluster state — replaying any trace it can
produce against any cluster state leaves that state unchanged, because the
trace never holds a create operation. -/
theorem setup_no_cluster_mutation (cfg : migrate.Cfg) (w : migrate.World) (wait : Bool)
    (s : migrate.ClusterState) :
    migrate.runOps s (migrate.Setup cfg w wait).2 = s := by
  unfold migrate.Setup migrate.runOps
  repeat' split
  all_goals simp_all [migrate.applyOp]

/-- C4: after resolution, `Setup` validates source non-empty, then target
non-empty, then source ≠ target, each with its own distinct fatal message,
and equal resolved names fail validation before the confirmation prompt is
ever reached. -/
theorem setup_validation_order (cfg : migrate.Cfg) (w : migrate.World) (wait : Bool)
    (s t : String)
    (hm : w.markerList = .ok [])
    (ht : w.resolveTargetR = .ok t) (hs : w.resolveSourceR = .ok s) :
    (s = "" → (migrate.Setup cfg w wait).1 = .error "source instance name is empty")
    ∧ (s ≠ "" → t = "" →
        (migrate.Setup cfg w wait).1 = .error "target instance name is required")
    ∧ (s ≠ "" → t ≠ "" → s = t →
        (migrate.Setup cfg w wait).1 = .error "source and target instance names cannot be the same")
    ∧ (s = t → migrate.Op.confirmPrompt ∉ (migrate.Setup cfg w wait).2
        ∧ ∃ m, (migrate.Setup cfg w wait).1 = .error m)
    ∧ ("source instance name is empty" ≠ "target instance name is required"
       ∧ "source instance name is empty" ≠ "source and target instance names cannot be the same"
       ∧ "target instance name is required" ≠ "source and target instance names cannot be the same") := by
  refine ⟨?_, ?_, ?_, ?_, by decide⟩
  · intro h0
    simp [migrate.Setup, hm, ht, hs, h0]
  · intro h0 h1
    simp [migrate.Setup, hm, ht, hs, h0, h1]
  · intro h0 h1 h2
    simp [migrate.Setup, hm, ht, hs, h0, h1, h2]
  · intro hst
    by_cases h0 : s = ""
    · exact ⟨by simp [migrate.Setup, hm, ht, hs, h0],
        ⟨"source instance name is empty", by simp [migrate.Setup, hm, ht, hs, h0]⟩⟩
    · have ht0 : t ≠ "" := by rw [← hst]; exact h0
      exact ⟨by simp [migrate.Setup, hm, ht, hs, h0, ht0, hst],
        ⟨"source and target instance names cannot be the same",
         by simp [migrate.Setup, hm, ht, hs, h0, ht0, hst]⟩⟩

/-- Witness for C4 at a concrete input with source = target. -/
theorem setup_validation_order_witness :
    (migrate.Setup migrate.cfgM migrate.wSame true).1 =
      .error "source and target instance names cannot be the same"
    ∧ migrate.Op.confirmPrompt ∉ (migrate.Setup migrate.cfgM migrate.wSame true).2 :=
  ⟨(setup_validation_order migrate.cfgM migrate.wSame true "same-inst" "same-inst"
      rfl rfl rfl).2.2.1 (by decide) (by decide) rfl,
   ((setup_validation_order migrate.cfgM migrate.wSame true "same-inst" "same-inst"
      rfl rfl rfl).2.2.2.1 rfl).1⟩

/-- C10: once the confirmation step succeeds, `Setup` returns nil for either
value of `wait`; the progress loop, when it starts, always ends in success
after its fixed 50 status messages, and a spinner failure merely redirects
the flow to printing the static completion message. -/
theorem setup_ok_after_confirmation (cfg : migrate.Cfg) (w : migrate.World) (wait : Bool)
    (s t proj : String)
    (hm : w.markerList = .ok []) (ht : w.resolveTargetR = .ok t) (hs : w.resolveSourceR = .ok s)
    (h1 : s ≠ "") (h2 : t ≠ "") (h3 : s ≠ t)
    (hp : w.lookupProjectR = .ok proj) (hc : w.confirmR = .ok ()) :
    (migrate.Setup cfg w wait).1 = .ok ()
    ∧ (∀ sw : migrate.SpinnerWorld, sw.spinnerStartErr = none → sw.multiStartErr = none →
        migrate.doSpinner sw = (.ok (), 50))
    ∧ (∀ m, wait = true → (migrate.doSpinner w.spinner).1 = .error m →
        migrate.Op.printMessage (migrate.setupMessage cfg s t proj)
          ∈ (migrate.Setup cfg w wait).2) := by
  refine ⟨?_, ?_, ?_⟩
  · simp [migrate.Setup, hm, ht, hs, h1, h2, h3, hp, hc]
  · intro sw hsp hmu
    simp [migrate.doSpinner, hsp, hmu, migrate.progressMessages]
  · intro m hw hsp
    simp [migrate.Setup, hm, ht, hs, h1, h2, h3, hp, hc, hw, hsp]

/-- Witness for C10 at a concrete input. -/
theorem setup_ok_after_confirmation_witness :
    (migrate.Setup migrate.cfgM migrate.wM false).1 = .ok ()
    ∧ migrate.doSpinner migrate.sw0 = (.ok (), 50) :=
  ⟨(setup_ok_after_confirmation migrate.cfgM migrate.wM false "src-inst" "tgt-inst" "proj-123"
      rfl rfl rfl (by decide) (by decide) (by decide) rfl rfl).1,
   (setup_ok_after_confirmation migrate.cfgM migrate.wM false "src-inst" "tgt-inst" "proj-123"
      rfl rfl rfl (by decide) (by decide) (by decide) rfl rfl).2.1 migrate.sw0 rfl rfl⟩

/-- C5 is refuted at this input: the primary `List` fails (returning, as the
generated clientset does, an empty list beside its error), the fallback
selector is then queried anyway, and its successful result is returned —
the primary failure is not returned after a single attempt. -/
theorem primary_failure_retried_via_fallback :
    debug.wPrimaryFail.listPrimary.2 = some (.other "boom")
    ∧ debug.getPodsForWorkload debug.cfgMain debug.wPrimaryFail =
        (.ok [debug.podReady],
         [.listPods "app.kubernetes.io/name=myapp", .listPods "app=myapp"]) :=
  ⟨rfl, rfl⟩

/-- C5 (amended): the fallback selector is queried iff the primary call
returned an empty item list — regardless of the primary call's error.  A
non-empty primary result means the fallback is never queried; but when the
primary fails with an empty item list, the fallback IS queried and its
outcome (success or wrapped error) replaces the primary's error. -/
theorem getPods_fallback_characterisation (cfg : debug.Config) (w : debug.World) :
    (w.listPrimary.1 ≠ [] →
      (debug.getPodsForWorkload cfg w).2 =
        [.listPods ("app.kubernetes.io/name=" ++ cfg.WorkloadName)])
    ∧ (w.listPrimary.1 = [] →
      (debug.getPodsForWorkload cfg w).2 =
        [.listPods ("app.kubernetes.io/name=" ++ cfg.WorkloadName),
         .listPods ("app=" ++ cfg.WorkloadName)]
      ∧ (debug.getPodsForWorkload cfg w).1 =
          (match w.listFallback.2 with
           | some e => .error (.other ("failed to get pods: " ++ e.message))
           | none => .ok w.listFallback.1)) := by
  constructor
  · intro h
    have hlen : ¬ w.listPrimary.1.length = 0 := by simpa using h
    cases h2 : w.listPrimary.2 <;> simp [debug.getPodsForWorkload, hlen, h2]
  · intro h
    cases h2 : w.listFallback.2 <;> simp [debug.getPodsForWorkload, h, h2]

/-- Witness for the amended C5 at a concrete input. -/
theorem getPods_fallback_characterisation_witness :
    (debug.getPodsForWorkload debug.cfgMain debug.wPrimaryFail).2 =
      [.listPods "app.kubernetes.io/name=myapp", .listPods "app=myapp"]
    ∧ (debug.getPodsForWorkload debug.cfgMain debug.wPrimaryFail).1 = .ok [debug.podReady] := by
  have h := (getPods_fallback_characterisation debug.cfgMain debug.wPrimaryFail).2 rfl
  exact ⟨h.1, h.2.trans (by rfl)⟩

/-- The attach trace is always the single attach invocation. -/
theorem attach_trace (w : debug.World) (pN : String) :
    (debug.attachToExistingDebugContainer w pN).2 = [.attachCmd pN] := by
  unfold debug.attachToExistingDebugContainer
  cases w.attachStartErr with
  | some e => rfl
  | none =>
      cases w.attachWaitErr with
      | some e => rfl
      | none => rfl

/-- The create trace is always the single debug-process invocation. -/
theorem create_trace (w : debug.World) (pN : String) :
    (debug.createDebugPod w pN).2 = [.debugCmd pN] := by
  unfold debug.createDebugPod
  cases w.debugStartErr with
  | some e => rfl
  | none =>
      cases w.debugWaitErr with
      | some msg =>
          dsimp only
          split <;> rfl
      | none => rfl

/-- No prompt event can appear in a poll-loop trace. -/
theorem promptSelect_notin_pollLoop (w : debug.World) (pN : String) :
    ∀ fuel k, debug.Ev.promptSelect ∉ (debug.pollLoop w pN k fuel).2 := by
  intro fuel
  induction fuel with
  | zero => intro k; simp [debug.pollLoop]
  | succ n ih =>
      intro k
      unfold debug.pollLoop
      cases w.getCopyPod k with
      | error e => simp
      | ok pod =>
          by_cases hr : debug.debuggerRunning pod = true
          · simp [hr, attach_trace]
          · simp only [Bool.not_eq_true] at hr
            simp [hr]
            exact ih (k + 1)

/-- No prompt event can appear in a `debugPod` trace. -/
theorem promptSelect_notin_debugPod (cfg : debug.Config) (w : debug.World) (podName : String) :
    debug.Ev.promptSelect ∉ (debug.debugPod cfg w podName).2 := by
  unfold debug.debugPod
  by_cases hc : cfg.CopyPod = true
  · simp only [hc, if_true]
    cases w.getCopyPod 0 with
    | ok p =>
        simp
        exact promptSelect_notin_pollLoop w _ 6 1
    | error e =>
        by_cases hn : e.isNotFound = true
        · simp [hn, create_trace]
        · simp only [Bool.not_eq_true] at hn
          simp [hn]
  · simp only [Bool.not_eq_true] at hc
    simp only [hc, Bool.false_eq_true, if_false]
    cases w.getTargetPod with
    | error e => simp
    | ok p => simp [create_trace]

/-- No prompt event can appear in a pod-lookup trace. -/
theorem promptSelect_notin_getPods (cfg : debug.Config) (w : debug.World) :
    debug.Ev.promptSelect ∉ (debug.getPodsForWorkload cfg w).2 := by
  unfold debug.getPodsForWorkload
  by_cases h : w.listPrimary.1.length = 0
  · cases h2 : w.listFallback.2 <;> simp [h, h2]
  · cases h2 : w.listPrimary.2 <;> simp [h, h2]

/-- C6 is refuted at this input: interactive selection is on and there is
exactly one candidate pod, yet the interactive choice is still presented. -/
theorem prompt_shown_single_candidate :
    (debug.getPodsForWorkload debug.cfgByPod debug.baseWorld).1 = .ok [debug.podReady]
    ∧ debug.Ev.promptSelect ∈ (debug.Debug debug.cfgByPod debug.baseWorld).2 :=
  ⟨rfl, by decide⟩

/-- C6 (amended): the interactive choice is presented iff
interactivePodSelect is set and at least one candidate exists (even a single
candidate is prompted for); with the flag unset, the first candidate in list
order is debugged without prompting. -/
theorem prompt_iff_bypod (cfg : debug.Config) (w : debug.World)
    (pods : List debug.Pod) (tr : List debug.Ev)
    (h1 : debug.getPodsForWorkload cfg w = (.ok pods, tr))
    (hne : pods ≠ []) :
    (cfg.ByPod = true → debug.Ev.promptSelect ∈ (debug.Debug cfg w).2)
    ∧ (cfg.ByPod = false →
        debug.Ev.promptSelect ∉ (debug.Debug cfg w).2
        ∧ (debug.Debug cfg w).2 =
            tr ++ (debug.debugPod cfg w ((pods.map debug.Pod.name).headD "")).2) := by
  have htr : debug.Ev.promptSelect ∉ tr := by
    have h := promptSelect_notin_getPods cfg w
    rw [h1] at h
    exact h
  constructor
  · intro hb
    unfold debug.Debug
    rw [h1]
    cases hp : w.prompt (pods.map debug.Pod.name) with
    | error e => simp [hne, hb, hp]
    | ok chosen => simp [hne, hb, hp]
  · intro hb
    unfold debug.Debug
    rw [h1]
    simp only [hb, Bool.false_eq_true, if_false]
    constructor
    · simp [hne]
      exact ⟨htr, promptSelect_notin_debugPod cfg w _⟩
    · simp [hne]

/-- Witness for the amended C6 at concrete inputs. -/
theorem prompt_iff_bypod_witness :
    debug.Ev.promptSelect ∈ (debug.Debug debug.cfgByPod debug.baseWorld).2
    ∧ debug.Ev.promptSelect ∉ (debug.Debug debug.cfgMain debug.baseWorld).2 :=
  ⟨(prompt_iff_bypod debug.cfgByPod debug.baseWorld [debug.podReady] _ rfl (by decide)).1 rfl,
   ((prompt_iff_bypod debug.cfgMain debug.baseWorld [debug.podReady] _ rfl (by decide)).2 rfl).1⟩

/-- Strings with different first characters stay different under appending a
suffix to the first. -/
theorem append_ne_of_head (p q x : String) (c d : Char) (tp tq : List Char)
    (hp : p.data = c :: tp) (hq : q.data = d :: tq) (hcd : c ≠ d) : p ++ x ≠ q := by
  intro h
  have hd := congrArg String.data h
  rw [String.data_append, hp, hq, List.cons_append] at hd
  injection hd with h1 _
  exact hcd h1

/-- An attach result is never the poll-loop timeout error. -/
theorem attach_ne_timeout (w : debug.World) (pN : String) :
    (debug.attachToExistingDebugContainer w pN).1 ≠ debug.timeoutErr := by
  unfold debug.attachToExistingDebugContainer debug.timeoutErr
  cases w.attachStartErr with
  | some e =>
      dsimp only
      intro h
      injection h with h1
      injection h1 with h2
      exact append_ne_of_head _ _ _ 'f' 'c' _ _ rfl rfl (by decide) h2
  | none =>
      cases w.attachWaitErr with
      | some e =>
          dsimp only
          intro h
          injection h with h1
          injection h1 with h2
          exact append_ne_of_head _ _ _ 'a' 'c' _ _ rfl rfl (by decide) h2
      | none =>
          dsimp only
          intro h
          exact Except.noConfusion h

/-- If some poll in the window sees the container Running (and every `Get`
succeeds), the loop launches exactly one attach and returns its result. -/
theorem pollLoop_attach (w : debug.World) (pN : String)
    (hok : ∀ k, (w.getCopyPod k).isOk = true) :
    ∀ fuel k, (∃ j, k ≤ j ∧ j < k + fuel ∧ debug.runningPoll w j = true) →
      debug.countAttach (debug.pollLoop w pN k fuel).2 = 1
      ∧ (debug.pollLoop w pN k fuel).1 = (debug.attachToExistingDebugContainer w pN).1 := by
  intro fuel
  induction fuel with
  | zero =>
      rintro k ⟨j, hj1, hj2, _⟩
      omega
  | succ n ih =>
      rintro k ⟨j, hj1, hj2, hj3⟩
      cases hk : w.getCopyPod k with
      | error e =>
          have h := hok k
          rw [hk] at h
          simp [Except.isOk, Except.toBool] at h
      | ok pod =>
          by_cases hr : debug.debuggerRunning pod = true
          · unfold debug.pollLoop
            rw [hk]
            simp only [hr, if_true]
            refine ⟨?_, by first | rfl | trivial⟩
            rw [show debug.countAttach
                  (debug.Ev.getPod pN :: (debug.attachToExistingDebugContainer w pN).2)
                = debug.countAttach (debug.attachToExistingDebugContainer w pN).2 from rfl]
            rw [attach_trace]
            rfl
          · have hrf : debug.debuggerRunning pod = false := by simpa using hr
            have hjk : k + 1 ≤ j := by
              by_cases hkj : j = k
              · exfalso
                subst hkj
                unfold debug.runningPoll at hj3
                rw [hk] at hj3
                simp [hrf] at hj3
              · omega
            have hrec := ih (k + 1) ⟨j, hjk, by omega, hj3⟩
            unfold debug.pollLoop
            rw [hk]
            simp only [hrf, Bool.false_eq_true, if_false]
            exact ⟨hrec.1, hrec.2⟩

/-- If no poll ever sees the container Running (and every `Get` succeeds),
the loop exhausts its attempts: one `Get` and one 5-second sleep per
attempt, ending in the timeout error. -/
theorem pollLoop_timeout (w : debug.World) (pN : String)
    (hok : ∀ k, (w.getCopyPod k).isOk = true)
    (hnr : ∀ k, debug.runningPoll w k = false) :
    ∀ fuel k, debug.pollLoop w pN k fuel =
      (debug.timeoutErr, (List.replicate fuel [debug.Ev.getPod pN, debug.Ev.sleep 5]).join) := by
  intro fuel
  induction fuel with
  | zero => intro k; rfl
  | succ n ih =>
      intro k
      cases hk : w.getCopyPod k with
      | error e =>
          have h := hok k
          rw [hk] at h
          simp [Except.isOk, Except.toBool] at h
      | ok pod =>
          have hrf : debug.debuggerRunning pod = false := by
            have h := hnr k
            unfold debug.runningPoll at h
            rw [hk] at h
            exact h
          unfold debug.pollLoop
          rw [hk]
          simp [hrf, ih (k + 1), List.replicate_succ]

/-- C3: in copy-pod mode with the copy pod already existing and every `Get`
succeeding: if the debugger container reports Running at one of the polls
1-5 (before the 6th), exactly one attach invocation is launched and the
result is the attach result, never the Timeout; if it never reports Running,
the operation returns the timeout error after exactly 6 polls, each followed
by a 5-second sleep. -/
theorem copyPod_poll_behaviour (cfg : debug.Config) (w : debug.World) (podName : String)
    (hcopy : cfg.CopyPod = true)
    (hok : ∀ k, (w.getCopyPod k).isOk = true) :
    ((∃ j, 1 ≤ j ∧ j ≤ 5 ∧ debug.runningPoll w j = true) →
      debug.countAttach (debug.debugPod cfg w podName).2 = 1
      ∧ (debug.debugPod cfg w podName).1 =
          (debug.attachToExistingDebugContainer w (debug.debuggerContainerName podName)).1
      ∧ (debug.debugPod cfg w podName).1 ≠ debug.timeoutErr)
    ∧ ((∀ k, debug.runningPoll w k = false) →
      debug.debugPod cfg w podName =
        (debug.timeoutErr,
         debug.Ev.getPod (debug.debuggerContainerName podName) ::
           (List.replicate 6 [debug.Ev.getPod (debug.debuggerContainerName podName),
                              debug.Ev.sleep 5]).join)) := by
  have hex : ∃ p0, w.getCopyPod 0 = .ok p0 := by
    have h := hok 0
    cases h0 : w.getCopyPod 0 with
    | ok p => exact ⟨p, rfl⟩
    | error e => rw [h0] at h; exact Bool.noConfusion h
  obtain ⟨p0, hp0⟩ := hex
  constructor
  · rintro ⟨j, hj1, hj2, hj3⟩
    have hA := pollLoop_attach w (debug.debuggerContainerName podName) hok 6 1
      ⟨j, hj1, by omega, hj3⟩
    unfold debug.debugPod
    simp only [hcopy, if_true]
    rw [hp0]
    refine ⟨hA.1, hA.2, ?_⟩
    rw [show ((debug.pollLoop w (debug.debuggerContainerName podName) 1 6).1,
          debug.Ev.getPod (debug.debuggerContainerName podName) ::
            (debug.pollLoop w (debug.debuggerContainerName podName) 1 6).2).1
        = (debug.pollLoop w (debug.debuggerContainerName podName) 1 6).1 from rfl]
    rw [hA.2]
    exact attach_ne_timeout w (debug.debuggerContainerName podName)
  · intro hnr
    have hB := pollLoop_timeout w (debug.debuggerContainerName podName) hok hnr 6 1
    unfold debug.debugPod
    simp only [hcopy, if_true]
    rw [hp0]
    simp [hB]

/-- Witness for C3 at concrete inputs: Running first observed at poll 3 in
one world; never Running in the other. -/
theorem copyPod_poll_behaviour_witness :
    debug.countAttach (debug.debugPod debug.cfgCopy debug.wPollRun "myapp-1").2 = 1
    ∧ debug.debugPod debug.cfgCopy debug.wPollNever "myapp-1" =
        (debug.timeoutErr,
         debug.Ev.getPod "myapp-1-nais-debugger" ::
           (List.replicate 6 [debug.Ev.getPod "myapp-1-nais-debugger",
                              debug.Ev.sleep 5]).join) := by
  constructor
  · exact ((copyPod_poll_behaviour debug.cfgCopy debug.wPollRun "myapp-1" rfl
      (fun k => by by_cases h : k = 3 <;> simp [debug.wPollRun, h, Except.isOk, Except.toBool])).1
      ⟨3, by omega, by omega, by decide⟩).1
  · exact (copyPod_poll_behaviour debug.cfgCopy debug.wPollNever "myapp-1" rfl
      (fun _ => rfl)).2 (fun _ => rfl)

set_option maxRecDepth 8000 in
/-- The eight `%s` verbs of the Go literal `SetupSuccessMessage` sit exactly
between the nine segments that `setupMessage` interpolates. -/
theorem setupSegments_join :
    migrate.msgSeg0 ++ "%s" ++ migrate.msgSeg1 ++ "%s" ++ migrate.msgSeg2 ++ "%s"
      ++ migrate.msgSeg3 ++ "%s" ++ migrate.msgSeg4 ++ "%s" ++ migrate.msgSeg5 ++ "%s"
      ++ migrate.msgSeg6 ++ "%s" ++ migrate.msgSeg7 ++ "%s" ++ migrate.msgSeg8
    = migrate.SetupSuccessMessage := rfl

set_option maxRecDepth 8000 in
/-- C8 is refuted: at this input the wait=false completion message is
printed with the hardcoded placeholder string "jobName" in the status-check
command although no job was created at all (the mutation step is disabled),
so the message cannot name "the actual job"; the promote command it contains
carries appName, namespace and the target instance name. -/
theorem setup_message_placeholder_job :
    (migrate.Setup migrate.cfgM migrate.wM false).1 = .ok ()
    ∧ migrate.createdJobs (migrate.Setup migrate.cfgM migrate.wM false).2 = []
    ∧ migrate.Op.printMessage
        (migrate.setupMessage migrate.cfgM "src-inst" "tgt-inst" "proj-123")
        ∈ (migrate.Setup migrate.cfgM migrate.wM false).2
    ∧ strContains (migrate.setupMessage migrate.cfgM "src-inst" "tgt-inst" "proj-123")
        "kubectl get job jobName -n myns" = true
    ∧ strContains (migrate.setupMessage migrate.cfgM "src-inst" "tgt-inst" "proj-123")
        "nais postgres migrate promote myapp myns tgt-inst" = true
    ∧ ¬ migrate.namesActualJob
        (migrate.createdJobs (migrate.Setup migrate.cfgM migrate.wM false).2)
        (migrate.setupMessage migrate.cfgM "src-inst" "tgt-inst" "proj-123") := by
  refine ⟨rfl, rfl, by decide, by decide, by decide, ?_⟩
  rw [show migrate.createdJobs (migrate.Setup migrate.cfgM migrate.wM false).2 = [] from rfl]
  simp [migrate.namesActualJob]

/-- C8 (amended): on the wait=false success path the printed completion
message is `setupMessage`, which contains the log-tail command with the
label selector and namespace, a status-check command naming the hardcoded
placeholder "jobName" (no actual job exists), the console URL embedding both
instance names and the resolved project id, and the promote command with
appName, namespace and the target instance name. -/
theorem setup_message_content (cfg : migrate.Cfg) (w : migrate.World) (s t proj : String)
    (hm : w.markerList = .ok []) (ht : w.resolveTargetR = .ok t) (hs : w.resolveSourceR = .ok s)
    (h1 : s ≠ "") (h2 : t ≠ "") (h3 : s ≠ t)
    (hp : w.lookupProjectR = .ok proj) (hc : w.confirmR = .ok ()) :
    migrate.Op.printMessage (migrate.setupMessage cfg s t proj)
      ∈ (migrate.Setup cfg w false).2
    ∧ containsStr (migrate.setupMessage cfg s t proj)
        ("kubectl logs -f -l " ++ migrate.kubectlLabelSelector cfg ++ " -n " ++ cfg.Namespace)
    ∧ containsStr (migrate.setupMessage cfg s t proj)
        ("kubectl get job jobName -n " ++ cfg.Namespace)
    ∧ containsStr (migrate.setupMessage cfg s t proj) (migrate.cloudConsoleUrl s t proj)
    ∧ containsStr (migrate.setupMessage cfg s t proj)
        ("nais postgres migrate promote " ++ cfg.AppName ++ " "
          ++ cfg.Namespace ++ " " ++ t) := by
  refine ⟨?_, ?_, ?_, ?_, ?_⟩
  · simp [migrate.Setup, hm, ht, hs, h1, h2, h3, hp, hc]
  · refine ⟨"\nMigration setup has been started successfully.\n\nTo monitor the migration, run the following command:\n\t",
      migrate.msgSeg2 ++ "jobName" ++ migrate.msgSeg3 ++ cfg.Namespace
        ++ migrate.msgSeg4 ++ migrate.cloudConsoleUrl s t proj
        ++ migrate.msgSeg5 ++ cfg.AppName ++ migrate.msgSeg6 ++ cfg.Namespace
        ++ migrate.msgSeg7 ++ t ++ migrate.msgSeg8, ?_⟩
    unfold migrate.setupMessage
    rw [show migrate.msgSeg0
        = "\nMigration setup has been started successfully.\n\nTo monitor the migration, run the following command:\n\t"
          ++ "kubectl logs -f -l " from rfl,
      show migrate.msgSeg1 = " -n " from rfl]
    simp only [String.append_assoc]
  · refine ⟨migrate.msgSeg0 ++ migrate.kubectlLabelSelector cfg ++ migrate.msgSeg1
        ++ cfg.Namespace
        ++ "\n\nThe setup will take some time to complete, you can check completion status with the following command:\n\t",
      migrate.msgSeg4 ++ migrate.cloudConsoleUrl s t proj
        ++ migrate.msgSeg5 ++ cfg.AppName ++ migrate.msgSeg6 ++ cfg.Namespace
        ++ migrate.msgSeg7 ++ t ++ migrate.msgSeg8, ?_⟩
    unfold migrate.setupMessage
    rw [show ("kubectl get job jobName -n " : String)
        = "kubectl get job " ++ "jobName" ++ " -n " from rfl,
      show migrate.msgSeg2
        = "\n\nThe setup will take some time to complete, you can check completion status with the following command:\n\t"
          ++ "kubectl get job " from rfl,
      show migrate.msgSeg3 = " -n " from rfl]
    simp only [String.append_assoc]
  · refine ⟨migrate.msgSeg0 ++ migrate.kubectlLabelSelector cfg ++ migrate.msgSeg1
        ++ cfg.Namespace ++ migrate.msgSeg2 ++ "jobName" ++ migrate.msgSeg3
        ++ cfg.Namespace ++ migrate.msgSeg4,
      migrate.msgSeg5 ++ cfg.AppName ++ migrate.msgSeg6 ++ cfg.Namespace
        ++ migrate.msgSeg7 ++ t ++ migrate.msgSeg8, ?_⟩
    unfold migrate.setupMessage
    simp only [String.append_assoc]
  · refine ⟨migrate.msgSeg0 ++ migrate.kubectlLabelSelector cfg ++ migrate.msgSeg1
        ++ cfg.Namespace ++ migrate.msgSeg2 ++ "jobName" ++ migrate.msgSeg3
        ++ cfg.Namespace ++ migrate.msgSeg4 ++ migrate.cloudConsoleUrl s t proj
        ++ "\n\nWhen the migration has Status Running and is in the CDC or Ready to Promote phase,\nyou can proceed with the next step of the migration:\n\t",
      migrate.msgSeg8, ?_⟩
    unfold migrate.setupMessage
    rw [show migrate.msgSeg5
        = "\n\nWhen the migration has Status Running and is in the CDC or Ready to Promote phase,\nyou can proceed with the next step of the migration:\n\t"
          ++ "nais postgres migrate promote " from rfl,
      show migrate.msgSeg6 = " " from rfl,
      show migrate.msgSeg7 = " " from rfl]
    simp only [String.append_assoc]

/-- Witness for the amended C8 at a concrete input. -/
theorem setup_message_content_witness :
    migrate.Op.printMessage (migrate.setupMessage migrate.cfgM "src-inst" "tgt-inst" "proj-123")
      ∈ (migrate.Setup migrate.cfgM migrate.wM false).2
    ∧ containsStr (migrate.setupMessage migrate.cfgM "src-inst" "tgt-inst" "proj-123")
        ("kubectl get job jobName -n " ++ migrate.cfgM.Namespace) :=
  ⟨(setup_message_content migrate.cfgM migrate.wM "src-inst" "tgt-inst" "proj-123"
      rfl rfl rfl (by decide) (by decide) (by decide) rfl rfl).1,
   (setup_message_content migrate.cfgM migrate.wM "src-inst" "tgt-inst" "proj-123"
      rfl rfl rfl (by decide) (by decide) (by decide) rfl rfl).2.2.1⟩
